import Mathlib

/-
Verification of the exponential spring contact model implemented in
Simbody/src/ExponentialSpringForce.cpp (class ExponentialSpringForceImpl).

The development shallowly embeds the numeric core of the implementation:
machine doubles become real numbers, SimTK::Vec3 becomes a record of three
reals, and the per-stage realize methods become pure functions from the
relevant pieces of the State to the quantities they compute.  The rigid
transform from the ground frame into the contact-plane frame is performed by
SimTKcommon utilities outside this repository, so the embedding of the
dynamics stage begins with the position and velocity already expressed in the
contact-plane frame (the point of line 344 of the source).
-/

namespace SimTK

set_option maxHeartbeats 1000000

/-- Three-component real vector mirroring SimTK::Vec3 as it is used by
ExponentialSpringForce.cpp.  Component 0 is x, component 1 is y, component 2
is z; in the contact-plane frame the z axis is the contact normal. -/
@[ext] structure Vec3 where
  x : ℝ
  y : ℝ
  z : ℝ

namespace Vec3

def add (a b : Vec3) : Vec3 := ⟨a.x + b.x, a.y + b.y, a.z + b.z⟩

def sub (a b : Vec3) : Vec3 := ⟨a.x - b.x, a.y - b.y, a.z - b.z⟩

def smul (c : ℝ) (v : Vec3) : Vec3 := ⟨c * v.x, c * v.y, c * v.z⟩

instance : Add Vec3 := ⟨add⟩

instance : Sub Vec3 := ⟨sub⟩

instance : SMul ℝ Vec3 := ⟨smul⟩

instance : Zero Vec3 := ⟨⟨0, 0, 0⟩⟩

/-- Euclidean norm of a Vec3, as computed by SimTK::Vec3::norm. -/
noncomputable def norm (v : Vec3) : ℝ := Real.sqrt (v.x ^ 2 + v.y ^ 2 + v.z ^ 2)

/-- Unit vector in the direction of v, as computed by SimTK::Vec3::normalize. -/
noncomputable def normalize (v : Vec3) : Vec3 := (1 / v.norm) • v

/-- Replace the z component of a vector, mirroring assignments of the form
v[2] = c in the source. -/
def setZ (v : Vec3) (c : ℝ) : Vec3 := ⟨v.x, v.y, c⟩

@[simp] lemma add_x (a b : Vec3) : (a + b).x = a.x + b.x := rfl

@[simp] lemma add_y (a b : Vec3) : (a + b).y = a.y + b.y := rfl

@[simp] lemma add_z (a b : Vec3) : (a + b).z = a.z + b.z := rfl

@[simp] lemma sub_x (a b : Vec3) : (a - b).x = a.x - b.x := rfl

@[simp] lemma sub_y (a b : Vec3) : (a - b).y = a.y - b.y := rfl

@[simp] lemma sub_z (a b : Vec3) : (a - b).z = a.z - b.z := rfl

@[simp] lemma smul_x (c : ℝ) (v : Vec3) : (c • v).x = c * v.x := rfl

@[simp] lemma smul_y (c : ℝ) (v : Vec3) : (c • v).y = c * v.y := rfl

@[simp] lemma smul_z (c : ℝ) (v : Vec3) : (c • v).z = c * v.z := rfl

@[simp] lemma zero_x : (0 : Vec3).x = 0 := rfl

@[simp] lemma zero_y : (0 : Vec3).y = 0 := rfl

@[simp] lemma zero_z : (0 : Vec3).z = 0 := rfl

@[simp] lemma setZ_x (v : Vec3) (c : ℝ) : (setZ v c).x = v.x := rfl

@[simp] lemma setZ_y (v : Vec3) (c : ℝ) : (setZ v c).y = v.y := rfl

@[simp] lemma setZ_z (v : Vec3) (c : ℝ) : (setZ v c).z = c := rfl

lemma norm_def (v : Vec3) : v.norm = Real.sqrt (v.x ^ 2 + v.y ^ 2 + v.z ^ 2) := rfl

lemma norm_nonneg (v : Vec3) : 0 ≤ v.norm := Real.sqrt_nonneg _

lemma norm_smul (c : ℝ) (v : Vec3) : (c • v).norm = |c| * v.norm := by
  simp only [norm_def, smul_x, smul_y, smul_z]
  rw [show (c * v.x) ^ 2 + (c * v.y) ^ 2 + (c * v.z) ^ 2
      = c ^ 2 * (v.x ^ 2 + v.y ^ 2 + v.z ^ 2) by ring]
  rw [Real.sqrt_mul (sq_nonneg c), Real.sqrt_sq_eq_abs]

lemma norm_mul_self (v : Vec3) : v.norm * v.norm = v.x ^ 2 + v.y ^ 2 + v.z ^ 2 := by
  exact Real.mul_self_sqrt (by positivity)

lemma smul_assoc' (a b : ℝ) (v : Vec3) : a • (b • v) = (a * b) • v := by
  ext <;> simp <;> ring

lemma smul_zero' (a : ℝ) : a • (0 : Vec3) = 0 := by
  ext <;> simp

@[simp] lemma one_smul' (v : Vec3) : (1 : ℝ) • v = v := by
  ext <;> simp

@[simp] lemma zero_smul' (v : Vec3) : (0 : ℝ) • v = 0 := by
  ext <;> simp

@[simp] lemma add_zero' (v : Vec3) : v + 0 = v := by
  ext <;> simp

@[simp] lemma zero_add' (v : Vec3) : 0 + v = v := by
  ext <;> simp

lemma smul_add_smul (c : ℝ) (a b : Vec3) : c • a + c • b = c • (a + b) := by
  ext <;> simp <;> ring

end Vec3

/-- Modelled from the spec: SimTK::SignificantReal, the small positive
numerical-noise threshold used by the source for velocity snapping, for the
negligible friction limit test, and for the negligible normal force test.
Its defining header (SimTKcommon) is not part of this repository, so a
representative small positive value is fixed here. -/
noncomputable def SignificantReal : ℝ := 1 / 10 ^ 14

lemma SignificantReal_pos : 0 < SignificantReal := by
  unfold SignificantReal; positivity

/-- Modelled from the spec: class ExponentialSpringParameters (the
ContactParameters of spec section 3) is declared outside this repository.
The fields collect exactly the values fetched by the source through
getShapeParameters, getNormalViscosity, getElasticity, getViscosity,
getSlidingTimeConstant and getSettleVelocity (lines 356-362). -/
structure Parameters where
  d0 : ℝ
  d1 : ℝ
  d2 : ℝ
  kvNorm : ℝ
  kpFric : ℝ
  kvFric : ℝ
  tau : ℝ
  vSettle : ℝ

/-- State variables owned by one contact point instance: the continuous
Sliding state z, the spring zero (anchor) discrete variable, and the two
friction coefficient discrete variables. -/
structure SpringState where
  z : ℝ
  sprZero : Vec3
  mus : ℝ
  muk : ℝ

/-- Cache entry computed at the dynamics stage, mirroring struct
ExponentialSpringData.  The ground-frame fields p_G, v_G and f_G are omitted
because the ground-to-plane transform lives outside this repository. -/
structure ExponentialSpringData where
  p : Vec3
  v : Vec3
  pz : ℝ
  vz : ℝ
  pxy : Vec3
  vxy : Vec3
  fzElas : ℝ
  fzDamp : ℝ
  fz : ℝ
  mu : ℝ
  fxyLimit : ℝ
  fricElas : Vec3
  fricDamp : Vec3
  fric : Vec3
  fxy : ℝ
  limitReached : Bool
  f : Vec3

/-- Clamp a value between zero and a maximum value
(ExponentialSpringForceImpl::ClampAboveZero, lines 671-676). -/
noncomputable def ClampAboveZero (value max : ℝ) : ℝ :=
  if value > max then max
  else if value < 0 then 0
  else value

/-- Per-axis snap-to-zero of small velocity components applied after the
transform into the contact frame (lines 344-345).  Only components 0 and 1
are tested and zeroed by the source. -/
noncomputable def snapVelocity (v : Vec3) : Vec3 :=
  ⟨if |v.x| < SignificantReal then 0 else v.x,
   if |v.y| < SignificantReal then 0 else v.y,
   v.z⟩

/-- Clamp of the Sliding state performed when it is read for force
computation (lines 378-380). -/
noncomputable def clampSliding (s : ℝ) : ℝ :=
  if s < 0 then 0
  else if s > 1 then 1
  else s

/-- Damper-only friction candidate capped to the friction limit and zeroed
when the limit is negligible (lines 401-408). -/
noncomputable def fricLimitOf (fxyLimit : ℝ) (fricDampSpr : Vec3) : Vec3 :=
  if fxyLimit < SignificantReal then 0
  else
    let fricLimit := fricDampSpr
    if fricLimit.norm > fxyLimit then fxyLimit • fricLimit.normalize
    else fricLimit

/-- Saturation of the anchored-spring candidate against the friction limit
(lines 414-424).  Returns the limitReached flag together with the possibly
rescaled elastic and damping parts. -/
noncomputable def saturateFric (fxyLimit : ℝ) (fricElasSpr fricDampSpr : Vec3) :
    Bool × Vec3 × Vec3 :=
  let fricSpr := fricElasSpr + fricDampSpr
  let fxySpr := fricSpr.norm
  if fxySpr > fxyLimit then
    let scale := fxyLimit / fxySpr
    (true, scale • fricElasSpr, scale • fricDampSpr)
  else
    (false, fricElasSpr, fricDampSpr)

/-- Dynamics-stage evaluation
(ExponentialSpringForceImpl::realizeSubsystemDynamicsImpl, lines 326-562).
Inputs p and v are the station position and velocity already expressed in
the contact-plane frame (the source obtains them at lines 342-343 through a
SimTKcommon transform that is outside this repository).  The result is the
data cache entry together with the new spring zero written to the
auto-update cache at line 437. -/
noncomputable def realizeSubsystemDynamicsImpl (prm : Parameters) (st : SpringState)
    (p v0 : Vec3) : ExponentialSpringData × Vec3 :=
  -- Snap small velocity components to zero (lines 344-345).
  let v := snapVelocity v0
  -- Resolve into normal and tangential parts (lines 349-353).
  let pz := p.z
  let vz := v.z
  let pxy := Vec3.setZ p 0
  let vxy := Vec3.setZ v 0
  -- Normal force (lines 364-374).
  let fzElas := prm.d1 * Real.exp (-prm.d2 * (pz - prm.d0))
  let fzDamp := -prm.kvNorm * vz * fzElas
  let fz := ClampAboveZero (fzElas + fzDamp) 100000
  -- Friction (lines 376-432).
  let sliding := clampSliding st.z
  let mu := st.mus - sliding * (st.mus - st.muk)
  let fxyLimit := mu * fz
  let p0 := st.sprZero
  let fricDampSpr0 := (-prm.kvFric) • vxy
  let fricLimit := fricLimitOf fxyLimit fricDampSpr0
  let fricElasSpr0 := (-prm.kpFric) • (pxy - p0)
  let sat := saturateFric fxyLimit fricElasSpr0 fricDampSpr0
  let limitReached := sat.1
  let fricElasSpr := sat.2.1
  let fricDampSpr := sat.2.2
  -- Blend the two extremes according to the Sliding state (lines 429-432).
  let fricElas := (1 - sliding) • fricElasSpr
  let fricDamp := fricDampSpr + sliding • (fricLimit - fricDampSpr)
  let fric := fricElas + fricDamp
  let fxy := fric.norm
  -- Update the spring zero (lines 434-437).
  let p0New := Vec3.setZ (pxy + (1 / prm.kpFric) • fricElas) 0
  -- Total spring force in the contact-plane frame (lines 441-442).
  let f := Vec3.setZ fric fz
  ({ p := p, v := v, pz := pz, vz := vz, pxy := pxy, vxy := vxy,
     fzElas := fzElas, fzDamp := fzDamp, fz := fz, mu := mu,
     fxyLimit := fxyLimit, fricElas := fricElas, fricDamp := fricDamp,
     fric := fric, fxy := fxy, limitReached := limitReached, f := f },
   p0New)

/-- Advancing the per-step state: the spring zero written to the auto-update
cache by the dynamics evaluation becomes the state value visible to the next
evaluation, while the continuous Sliding state and the friction coefficients
are untouched by the evaluation itself. -/
noncomputable def stepDynamics (prm : Parameters) (st : SpringState) (p v : Vec3) :
    SpringState × ExponentialSpringData :=
  let out := realizeSubsystemDynamicsImpl prm st p v
  ({ st with sprZero := out.2 }, out.1)

/-- Acceleration-stage derivative update
(ExponentialSpringForceImpl::realizeSubsystemAccelerationImpl,
lines 566-605).  It reads the raw Sliding state and the data cache entry
computed at the dynamics stage and returns the value written into ZDot. -/
noncomputable def realizeSubsystemAccelerationImpl (prm : Parameters) (sliding : ℝ)
    (data : ExponentialSpringData) (a : Vec3) : ℝ :=
  let kTau := 1 / prm.tau
  let _vSettle := prm.vSettle
  let _aMag := a.norm
  let slidingDot : ℝ := 0
  -- Conditions for transitioning toward fixed (lines 589-591).
  let slidingDot :=
    if data.limitReached = false ∧ data.vxy.norm < 0.001 ∧ |data.vz| < 0.001 then
      -kTau * sliding
    else slidingDot
  -- Conditions for transitioning toward sliding (lines 596-597).
  let slidingDot :=
    if data.limitReached = true ∨ data.fz < SignificantReal then
      kTau * (1 - sliding)
    else slidingDot
  slidingDot

/-- Potential energy query
(ExponentialSpringForceImpl::calcPotentialEnergy, lines 610-628).
The spring zero argument is the one held in the cache, that is, the value
written by the dynamics evaluation of the current step. -/
noncomputable def calcPotentialEnergy (prm : Parameters)
    (data : ExponentialSpringData) (p0Cache : Vec3) : ℝ :=
  let energy := data.fzElas / prm.d2
  let r := data.pxy - p0Cache
  energy + 0.5 * prm.kpFric * r.norm * r.norm

/-- Potential energy as queried after a dynamics evaluation: the spring zero
used is the pending auto-update value produced by that same evaluation
(getSprZeroInCache, lines 619-624), not the raw state variable. -/
noncomputable def potentialEnergyAfterEvaluation (prm : Parameters)
    (st : SpringState) (p v : Vec3) : ℝ :=
  let out := realizeSubsystemDynamicsImpl prm st p v
  calcPotentialEnergy prm out.1 out.2

/-- Clamping of the default friction coefficients performed by the
constructor (lines 184-188): both are forced nonnegative and the kinetic
coefficient is lowered to the static one if it exceeds it. -/
noncomputable def initCoefficients (mus0 muk0 : ℝ) : ℝ × ℝ :=
  let mus := if mus0 < 0 then 0 else mus0
  let muk := if muk0 < 0 then 0 else muk0
  let muk := if muk > mus then mus else muk
  (mus, muk)

/-- Topology-stage initialization
(ExponentialSpringForceImpl::realizeSubsystemTopologyImpl, lines 281-302):
the friction coefficient discrete variables receive the constructor-clamped
defaults, the spring zero receives defaultSprZero = (0,0,0), and the
continuous Sliding state receives the initial value 1.0 (line 295). -/
noncomputable def realizeSubsystemTopologyImpl (defaultMus defaultMuk : ℝ) :
    SpringState :=
  { z := 1.0,
    sprZero := ⟨0, 0, 0⟩,
    mus := (initCoefficients defaultMus defaultMuk).1,
    muk := (initCoefficients defaultMus defaultMuk).2 }

/-- State transformer for ExponentialSpringForceImpl::setMuStatic
(lines 243-253): clamp the argument to be nonnegative, store it, and lower
the kinetic coefficient to match if it would exceed the new static one. -/
noncomputable def setMuStatic (st : SpringState) (mus0 : ℝ) : SpringState :=
  let mus := if mus0 < 0 then 0 else mus0
  let muk := if st.muk > mus then mus else st.muk
  { st with mus := mus, muk := muk }

/-- State transformer for ExponentialSpringForceImpl::setMuKinetic
(lines 258-267): clamp the argument to be nonnegative, store it, and raise
the static coefficient to match if the new kinetic one exceeds it. -/
noncomputable def setMuKinetic (st : SpringState) (muk0 : ℝ) : SpringState :=
  let muk := if muk0 < 0 then 0 else muk0
  let mus := if muk > st.mus then muk else st.mus
  { st with mus := mus, muk := muk }

/-- One call to either friction coefficient setter. -/
inductive MuOp where
  | setStatic (mu : ℝ)
  | setKinetic (mu : ℝ)

/-- Apply a sequence of friction coefficient setter calls to a state. -/
noncomputable def applyMuOps (st : SpringState) : List MuOp → SpringState
  | [] => st
  | op :: rest =>
      applyMuOps
        (match op with
         | .setStatic m => setMuStatic st m
         | .setKinetic m => setMuKinetic st m)
        rest

/-- Invariant maintained for the stored friction coefficients. -/
def MuInvariant (st : SpringState) : Prop :=
  0 ≤ st.mus ∧ 0 ≤ st.muk ∧ st.muk ≤ st.mus

section Projections

variable (prm : Parameters) (st : SpringState) (p v : Vec3)

lemma realize_v : (realizeSubsystemDynamicsImpl prm st p v).1.v = snapVelocity v := rfl

lemma realize_pz : (realizeSubsystemDynamicsImpl prm st p v).1.pz = p.z := rfl

lemma realize_vz :
    (realizeSubsystemDynamicsImpl prm st p v).1.vz = (snapVelocity v).z := rfl

lemma realize_pxy :
    (realizeSubsystemDynamicsImpl prm st p v).1.pxy = Vec3.setZ p 0 := rfl

lemma realize_vxy :
    (realizeSubsystemDynamicsImpl prm st p v).1.vxy
      = Vec3.setZ (snapVelocity v) 0 := rfl

lemma realize_fzElas :
    (realizeSubsystemDynamicsImpl prm st p v).1.fzElas
      = prm.d1 * Real.exp (-prm.d2 *
          ((realizeSubsystemDynamicsImpl prm st p v).1.pz - prm.d0)) := rfl

lemma realize_fzDamp :
    (realizeSubsystemDynamicsImpl prm st p v).1.fzDamp
      = -prm.kvNorm * (realizeSubsystemDynamicsImpl prm st p v).1.vz *
          (realizeSubsystemDynamicsImpl prm st p v).1.fzElas := rfl

lemma realize_fz :
    (realizeSubsystemDynamicsImpl prm st p v).1.fz
      = ClampAboveZero ((realizeSubsystemDynamicsImpl prm st p v).1.fzElas +
          (realizeSubsystemDynamicsImpl prm st p v).1.fzDamp) 100000 := rfl

lemma realize_mu :
    (realizeSubsystemDynamicsImpl prm st p v).1.mu
      = st.mus - clampSliding st.z * (st.mus - st.muk) := rfl

lemma realize_fxyLimit :
    (realizeSubsystemDynamicsImpl prm st p v).1.fxyLimit
      = (realizeSubsystemDynamicsImpl prm st p v).1.mu *
        (realizeSubsystemDynamicsImpl prm st p v).1.fz := rfl

lemma realize_limitReached :
    (realizeSubsystemDynamicsImpl prm st p v).1.limitReached
      = (saturateFric (realizeSubsystemDynamicsImpl prm st p v).1.fxyLimit
          ((-prm.kpFric) • ((realizeSubsystemDynamicsImpl prm st p v).1.pxy - st.sprZero))
          ((-prm.kvFric) • (realizeSubsystemDynamicsImpl prm st p v).1.vxy)).1 := rfl

lemma realize_fricElas :
    (realizeSubsystemDynamicsImpl prm st p v).1.fricElas
      = (1 - clampSliding st.z) •
        (saturateFric (realizeSubsystemDynamicsImpl prm st p v).1.fxyLimit
          ((-prm.kpFric) • ((realizeSubsystemDynamicsImpl prm st p v).1.pxy - st.sprZero))
          ((-prm.kvFric) • (realizeSubsystemDynamicsImpl prm st p v).1.vxy)).2.1 := rfl

lemma realize_fricDamp :
    (realizeSubsystemDynamicsImpl prm st p v).1.fricDamp
      = (saturateFric (realizeSubsystemDynamicsImpl prm st p v).1.fxyLimit
          ((-prm.kpFric) • ((realizeSubsystemDynamicsImpl prm st p v).1.pxy - st.sprZero))
          ((-prm.kvFric) • (realizeSubsystemDynamicsImpl prm st p v).1.vxy)).2.2
        + clampSliding st.z •
          (fricLimitOf (realizeSubsystemDynamicsImpl prm st p v).1.fxyLimit
            ((-prm.kvFric) • (realizeSubsystemDynamicsImpl prm st p v).1.vxy)
           - (saturateFric (realizeSubsystemDynamicsImpl prm st p v).1.fxyLimit
               ((-prm.kpFric) • ((realizeSubsystemDynamicsImpl prm st p v).1.pxy - st.sprZero))
               ((-prm.kvFric) • (realizeSubsystemDynamicsImpl prm st p v).1.vxy)).2.2) := rfl

lemma realize_fric :
    (realizeSubsystemDynamicsImpl prm st p v).1.fric
      = (realizeSubsystemDynamicsImpl prm st p v).1.fricElas +
        (realizeSubsystemDynamicsImpl prm st p v).1.fricDamp := rfl

lemma realize_fxy :
    (realizeSubsystemDynamicsImpl prm st p v).1.fxy
      = (realizeSubsystemDynamicsImpl prm st p v).1.fric.norm := rfl

lemma realize_anchor :
    (realizeSubsystemDynamicsImpl prm st p v).2
      = Vec3.setZ ((realizeSubsystemDynamicsImpl prm st p v).1.pxy +
          (1 / prm.kpFric) • (realizeSubsystemDynamicsImpl prm st p v).1.fricElas) 0 := rfl

lemma realize_f :
    (realizeSubsystemDynamicsImpl prm st p v).1.f
      = Vec3.setZ (realizeSubsystemDynamicsImpl prm st p v).1.fric
          (realizeSubsystemDynamicsImpl prm st p v).1.fz := rfl

end Projections

lemma ClampAboveZero_nonneg (value max : ℝ) (h : 0 ≤ max) :
    0 ≤ ClampAboveZero value max := by
  unfold ClampAboveZero
  split_ifs <;> linarith

lemma ClampAboveZero_le (value max : ℝ) (h : 0 ≤ max) :
    ClampAboveZero value max ≤ max := by
  unfold ClampAboveZero
  split_ifs <;> linarith

lemma clampSliding_nonneg (s : ℝ) : 0 ≤ clampSliding s := by
  unfold clampSliding
  split_ifs <;> linarith

lemma clampSliding_le_one (s : ℝ) : clampSliding s ≤ 1 := by
  unfold clampSliding
  split_ifs <;> linarith

lemma clampSliding_of_mem (s : ℝ) (h0 : 0 ≤ s) (h1 : s ≤ 1) : clampSliding s = s := by
  unfold clampSliding
  rw [if_neg (by linarith), if_neg (by linarith)]

lemma saturateFric_true_iff (L : ℝ) (e d : Vec3) :
    (saturateFric L e d).1 = true ↔ (e + d).norm > L := by
  unfold saturateFric
  dsimp only
  split_ifs with h <;> simp [h]

lemma saturateFric_of_sat (L : ℝ) (e d : Vec3) (h : (e + d).norm > L) :
    saturateFric L e d = (true, (L / (e + d).norm) • e, (L / (e + d).norm) • d) := by
  unfold saturateFric
  rw [if_pos h]

lemma saturateFric_elas_z (L : ℝ) (e d : Vec3) (he : e.z = 0) :
    (saturateFric L e d).2.1.z = 0 := by
  unfold saturateFric
  dsimp only
  split_ifs with h <;> simp [he]

lemma saturateFric_norm (L : ℝ) (e d : Vec3) (hL : 0 ≤ L) (h : (e + d).norm > L) :
    ((saturateFric L e d).2.1 + (saturateFric L e d).2.2).norm = L := by
  rw [saturateFric_of_sat L e d h]
  have hne : (e + d).norm ≠ 0 := by
    have := Vec3.norm_nonneg (e + d)
    intro hz
    rw [hz] at h
    exact absurd h (not_lt.mpr hL)
  have hscale : 0 ≤ L / (e + d).norm := div_nonneg hL (Vec3.norm_nonneg _)
  simp only
  rw [Vec3.smul_add_smul, Vec3.norm_smul, abs_of_nonneg hscale,
    div_mul_cancel₀ _ hne]

lemma fricLimitOf_of_small (L : ℝ) (d : Vec3) (h : L < SignificantReal) :
    fricLimitOf L d = 0 := by
  unfold fricLimitOf
  rw [if_pos h]

lemma fricLimitOf_of_under (L : ℝ) (d : Vec3) (h : ¬ L < SignificantReal)
    (h2 : ¬ d.norm > L) : fricLimitOf L d = d := by
  unfold fricLimitOf
  dsimp only
  rw [if_neg h, if_neg h2]

lemma fricLimitOf_of_cap (L : ℝ) (d : Vec3) (h : ¬ L < SignificantReal)
    (h2 : d.norm > L) : fricLimitOf L d = (L / d.norm) • d := by
  unfold fricLimitOf
  dsimp only
  rw [if_neg h, if_pos h2]
  unfold Vec3.normalize
  rw [Vec3.smul_assoc', mul_one_div]

lemma initCoefficients_spec (a b : ℝ) :
    0 ≤ (initCoefficients a b).1 ∧ 0 ≤ (initCoefficients a b).2 ∧
    (initCoefficients a b).2 ≤ (initCoefficients a b).1 := by
  unfold initCoefficients
  dsimp only
  split_ifs <;> refine ⟨?_, ?_, ?_⟩ <;> linarith

lemma setMuStatic_invariant (st : SpringState) (m : ℝ) (h : MuInvariant st) :
    MuInvariant (setMuStatic st m) := by
  obtain ⟨h1, h2, h3⟩ := h
  unfold MuInvariant setMuStatic
  dsimp only
  split_ifs <;> refine ⟨?_, ?_, ?_⟩ <;> linarith

lemma setMuKinetic_invariant (st : SpringState) (m : ℝ) (h : MuInvariant st) :
    MuInvariant (setMuKinetic st m) := by
  obtain ⟨h1, h2, h3⟩ := h
  unfold MuInvariant setMuKinetic
  dsimp only
  split_ifs <;> refine ⟨?_, ?_, ?_⟩ <;> linarith

lemma applyMuOps_invariant (ops : List MuOp) (st : SpringState)
    (h : MuInvariant st) : MuInvariant (applyMuOps st ops) := by
  induction ops generalizing st with
  | nil => exact h
  | cons op rest ih =>
      cases op with
      | setStatic m =>
          simp only [applyMuOps]
          exact ih _ (setMuStatic_invariant st m h)
      | setKinetic m =>
          simp only [applyMuOps]
          exact ih _ (setMuKinetic_invariant st m h)

/-- C4: in every dynamics evaluation the total normal force satisfies
fz = clamp(fzElas + fzDamp, 0, fzMax) with fzElas = d1 * exp(-d2 * (pz - d0)),
fzDamp = -kvNormal * vz * fzElas and fzMax = 100000, and hence fz always lies
in the interval [0, fzMax]. -/
theorem normal_force_law_clamped (prm : Parameters) (st : SpringState) (p v : Vec3) :
    (realizeSubsystemDynamicsImpl prm st p v).1.fzElas
      = prm.d1 * Real.exp (-prm.d2 *
          ((realizeSubsystemDynamicsImpl prm st p v).1.pz - prm.d0)) ∧
    (realizeSubsystemDynamicsImpl prm st p v).1.fzDamp
      = -prm.kvNorm * (realizeSubsystemDynamicsImpl prm st p v).1.vz *
          (realizeSubsystemDynamicsImpl prm st p v).1.fzElas ∧
    (realizeSubsystemDynamicsImpl prm st p v).1.fz
      = ClampAboveZero ((realizeSubsystemDynamicsImpl prm st p v).1.fzElas +
          (realizeSubsystemDynamicsImpl prm st p v).1.fzDamp) 100000 ∧
    0 ≤ (realizeSubsystemDynamicsImpl prm st p v).1.fz ∧
    (realizeSubsystemDynamicsImpl prm st p v).1.fz ≤ 100000 := by
  refine ⟨realize_fzElas prm st p v, realize_fzDamp prm st p v,
    realize_fz prm st p v, ?_, ?_⟩
  · rw [realize_fz]
    exact ClampAboveZero_nonneg _ _ (by norm_num)
  · rw [realize_fz]
    exact ClampAboveZero_le _ _ (by norm_num)

/-- C6: the sliding value used by every force evaluation is the clamp of the
raw integrated state to [0, 1]; the instantaneous friction coefficient is
mu = muStatic - sliding * (muStatic - muKinetic), the Coulomb limit is
fxyLimit = mu * fz, and the evaluation leaves the integrated Sliding state
itself unchanged. -/
theorem sliding_read_clamped (prm : Parameters) (st : SpringState) (p v : Vec3) :
    0 ≤ clampSliding st.z ∧ clampSliding st.z ≤ 1 ∧
    (realizeSubsystemDynamicsImpl prm st p v).1.mu
      = st.mus - clampSliding st.z * (st.mus - st.muk) ∧
    (realizeSubsystemDynamicsImpl prm st p v).1.fxyLimit
      = (realizeSubsystemDynamicsImpl prm st p v).1.mu *
        (realizeSubsystemDynamicsImpl prm st p v).1.fz ∧
    (stepDynamics prm st p v).1.z = st.z :=
  ⟨clampSliding_nonneg st.z, clampSliding_le_one st.z,
    realize_mu prm st p v, realize_fxyLimit prm st p v, rfl⟩

/-- C1: the derivative update computes sDot = (1-s)/tau when the friction
limit was saturated this step or fz is below the negligible-force threshold
(the rise assignment, evaluated second, overwriting any decay assignment),
sDot = -s/tau when the limit was not saturated and the tangential and normal
speeds are both below 0.001 and the rise condition does not hold, and
sDot = 0 otherwise. -/
theorem slidingDot_cases (prm : Parameters) (s : ℝ)
    (data : ExponentialSpringData) (a : Vec3) :
    realizeSubsystemAccelerationImpl prm s data a =
      if data.limitReached = true ∨ data.fz < SignificantReal then
        (1 - s) / prm.tau
      else if data.limitReached = false ∧ data.vxy.norm < 0.001 ∧
          |data.vz| < 0.001 then
        -(s / prm.tau)
      else 0 := by
  unfold realizeSubsystemAccelerationImpl
  dsimp only
  split_ifs <;> ring

/-- C10: at topology realization the continuous Sliding state is initialized
to 1.0 (fully sliding) and not to 0, so the clamped sliding value read by the
first force evaluation is 1. -/
theorem initial_sliding_is_one (defaultMus defaultMuk : ℝ) :
    (realizeSubsystemTopologyImpl defaultMus defaultMuk).z = 1 ∧
    (realizeSubsystemTopologyImpl defaultMus defaultMuk).z ≠ 0 ∧
    clampSliding (realizeSubsystemTopologyImpl defaultMus defaultMuk).z = 1 := by
  refine ⟨by norm_num [realizeSubsystemTopologyImpl], ?_, ?_⟩
  · norm_num [realizeSubsystemTopologyImpl]
  · rw [show (realizeSubsystemTopologyImpl defaultMus defaultMuk).z = 1
      by norm_num [realizeSubsystemTopologyImpl]]
    unfold clampSliding
    norm_num

/-- C5: starting from the constructor-clamped defaults, any sequence of
setMuStatic and setMuKinetic calls with arbitrary real arguments leaves the
stored coefficients satisfying 0 <= muKinetic <= muStatic. -/
theorem mu_invariant_preserved (defaultMus defaultMuk : ℝ) (ops : List MuOp) :
    MuInvariant (applyMuOps (realizeSubsystemTopologyImpl defaultMus defaultMuk) ops) := by
  apply applyMuOps_invariant
  obtain ⟨h1, h2, h3⟩ := initCoefficients_spec defaultMus defaultMuk
  exact ⟨h1, h2, h3⟩

/-- C7: the potential-energy query computed after a dynamics evaluation
returns E = fzElas/d2 + 0.5 * kpFriction * |pxy - anchor|^2, where the anchor
is the pending auto-update value written by that same evaluation, not the raw
state variable. -/
theorem potential_energy_uses_updated_anchor (prm : Parameters)
    (st : SpringState) (p v : Vec3) :
    potentialEnergyAfterEvaluation prm st p v
      = (realizeSubsystemDynamicsImpl prm st p v).1.fzElas / prm.d2 +
        0.5 * prm.kpFric *
          ((realizeSubsystemDynamicsImpl prm st p v).1.pxy -
            (realizeSubsystemDynamicsImpl prm st p v).2).norm ^ 2 := by
  unfold potentialEnergyAfterEvaluation calcPotentialEnergy
  dsimp only
  rw [sq]
  ring

/-- C9: when fxyLimit is numerically negligible (below SignificantReal) the
damper-only friction candidate is exactly the zero vector, with no division
performed; otherwise the candidate equals -kvFriction * vxy when that vector
is within the limit, and is capped to length exactly fxyLimit by a
nonnegative direction-preserving scale factor when it exceeds the limit. -/
theorem fricLimit_damper_candidate (kvFric fxyLimit : ℝ) (vxy : Vec3) :
    (fxyLimit < SignificantReal →
      fricLimitOf fxyLimit ((-kvFric) • vxy) = 0) ∧
    (¬ fxyLimit < SignificantReal →
      (¬ ((-kvFric) • vxy).norm > fxyLimit →
        fricLimitOf fxyLimit ((-kvFric) • vxy) = (-kvFric) • vxy) ∧
      (((-kvFric) • vxy).norm > fxyLimit →
        fricLimitOf fxyLimit ((-kvFric) • vxy)
          = (fxyLimit / ((-kvFric) • vxy).norm) • ((-kvFric) • vxy) ∧
        0 ≤ fxyLimit / ((-kvFric) • vxy).norm ∧
        (fricLimitOf fxyLimit ((-kvFric) • vxy)).norm = fxyLimit)) := by
  set d := (-kvFric) • vxy with hd
  refine ⟨fun h => fricLimitOf_of_small _ _ h, fun h => ⟨fun h2 =>
    fricLimitOf_of_under _ _ h h2, fun h2 => ?_⟩⟩
  have hL : 0 < fxyLimit := lt_of_lt_of_le SignificantReal_pos (not_lt.mp h)
  have hscale : 0 ≤ fxyLimit / d.norm :=
    div_nonneg (le_of_lt hL) (Vec3.norm_nonneg d)
  have hne : d.norm ≠ 0 :=
    ne_of_gt (lt_trans hL h2)
  refine ⟨fricLimitOf_of_cap _ _ h h2, hscale, ?_⟩
  rw [fricLimitOf_of_cap _ _ h h2, Vec3.norm_smul, abs_of_nonneg hscale,
    div_mul_cancel₀ _ hne]

/-- C9 witness: with fxyLimit = 0 (below the threshold) and the damper
candidate built from kvFriction = 1 and zero tangential velocity, the
candidate returned is the zero vector. -/
theorem fricLimit_damper_candidate_witness :
    (0 : ℝ) < SignificantReal ∧
    fricLimitOf 0 ((-(1 : ℝ)) • (0 : Vec3)) = 0 :=
  ⟨SignificantReal_pos,
    (fricLimit_damper_candidate 1 0 0).1 SignificantReal_pos⟩

/-- Concrete parameter set used for witness evaluations: shape parameters
d0 = 0, d1 = 1, d2 = 1, no normal or tangential viscosity, unit tangential
stiffness, unit sliding time constant, settle velocity 0.1. -/
noncomputable def prmW : Parameters := ⟨0, 1, 1, 0, 1, 0, 1, 1 / 10⟩

/-- Concrete state used for witness evaluations: raw Sliding value s, spring
zero at the origin, both friction coefficients equal to 1. -/
noncomputable def stW (s : ℝ) : SpringState := ⟨s, ⟨0, 0, 0⟩, 1, 1⟩

/-- Concrete station position used for witness evaluations: displaced two
units tangentially, lying exactly on the contact plane. -/
def pW : Vec3 := ⟨2, 0, 0⟩

/-- C3: the new anchor stored for the next step equals
pxy + fricElas / kpFriction with its normal component forced to zero, and
recomputing -kpFriction * (pxy - newAnchor) reproduces exactly the elastic
friction force applied in this step, including any saturation scaling and
blend scaling; the stored anchor is assumed to lie in the contact plane, as
every anchor written by the code does. -/
theorem anchor_update_consistency (prm : Parameters) (st : SpringState)
    (p v : Vec3) (hk : prm.kpFric ≠ 0) (hz : st.sprZero.z = 0) :
    (realizeSubsystemDynamicsImpl prm st p v).2
      = Vec3.setZ ((realizeSubsystemDynamicsImpl prm st p v).1.pxy +
          (1 / prm.kpFric) • (realizeSubsystemDynamicsImpl prm st p v).1.fricElas) 0 ∧
    (-prm.kpFric) • ((realizeSubsystemDynamicsImpl prm st p v).1.pxy -
        (realizeSubsystemDynamicsImpl prm st p v).2)
      = (realizeSubsystemDynamicsImpl prm st p v).1.fricElas := by
  have hElasZ : (realizeSubsystemDynamicsImpl prm st p v).1.fricElas.z = 0 := by
    rw [realize_fricElas, Vec3.smul_z]
    have hz0 : ((-prm.kpFric) •
        ((realizeSubsystemDynamicsImpl prm st p v).1.pxy - st.sprZero)).z = 0 := by
      rw [Vec3.smul_z, Vec3.sub_z, realize_pxy, Vec3.setZ_z, hz]
      ring
    rw [saturateFric_elas_z _ _ _ hz0, mul_zero]
  have key : ∀ A B : ℝ, -prm.kpFric * (A - (A + 1 / prm.kpFric * B)) = B := by
    intro A B
    field_simp
  refine ⟨realize_anchor prm st p v, ?_⟩
  ext
  · rw [realize_anchor]
    simp only [Vec3.smul_x, Vec3.sub_x, Vec3.setZ_x, Vec3.add_x]
    exact key _ _
  · rw [realize_anchor]
    simp only [Vec3.smul_y, Vec3.sub_y, Vec3.setZ_y, Vec3.add_y]
    exact key _ _
  · rw [realize_anchor]
    simp only [Vec3.smul_z, Vec3.sub_z, Vec3.setZ_z, realize_pxy, hElasZ]
    ring

/-- C3 witness: at the concrete witness inputs the tangential stiffness is
nonzero, the stored anchor lies in the contact plane, and recomputing the
elastic force from the new anchor reproduces the applied elastic force. -/
theorem anchor_update_consistency_witness :
    prmW.kpFric ≠ 0 ∧ (stW 0).sprZero.z = 0 ∧
    (-prmW.kpFric) • ((realizeSubsystemDynamicsImpl prmW (stW 0) pW 0).1.pxy -
        (realizeSubsystemDynamicsImpl prmW (stW 0) pW 0).2)
      = (realizeSubsystemDynamicsImpl prmW (stW 0) pW 0).1.fricElas :=
  ⟨by norm_num [prmW], rfl,
    (anchor_update_consistency prmW (stW 0) pW 0 (by norm_num [prmW]) rfl).2⟩

/-- C8 counterexample: a plane-frame velocity whose normal component is
nonzero but smaller in magnitude than SignificantReal is not snapped to
zero: the vz stored in the data cache and used by the force law keeps the
value 1/10^15, so the snapping does not apply to the normal component. -/
theorem velocity_snap_counterexample :
    |(Vec3.mk 0 0 (1 / 10 ^ 15)).z| < SignificantReal ∧
    (realizeSubsystemDynamicsImpl prmW (stW 1) pW (Vec3.mk 0 0 (1 / 10 ^ 15))).1.vz
      = 1 / 10 ^ 15 ∧
    (1 / 10 ^ 15 : ℝ) ≠ 0 := by
  refine ⟨?_, rfl, by norm_num⟩
  rw [show |(Vec3.mk 0 0 (1 / 10 ^ 15)).z| = (1 / 10 ^ 15 : ℝ) from
    abs_of_nonneg (by norm_num)]
  norm_num [SignificantReal]

/-- C8 (amended): the per-axis snap-to-zero of velocity components below
SignificantReal applies only to the two tangential components of the
plane-frame velocity; the normal component vz is passed through to the force
computation unsnapped. -/
theorem velocity_snap_tangential_only (prm : Parameters) (st : SpringState)
    (p v : Vec3) :
    (realizeSubsystemDynamicsImpl prm st p v).1.v = snapVelocity v ∧
    (|v.x| < SignificantReal →
      (realizeSubsystemDynamicsImpl prm st p v).1.v.x = 0) ∧
    (|v.y| < SignificantReal →
      (realizeSubsystemDynamicsImpl prm st p v).1.v.y = 0) ∧
    (realizeSubsystemDynamicsImpl prm st p v).1.vz = v.z := by
  refine ⟨rfl, ?_, ?_, rfl⟩
  · intro h
    show (if |v.x| < SignificantReal then (0 : ℝ) else v.x) = 0
    rw [if_pos h]
  · intro h
    show (if |v.y| < SignificantReal then (0 : ℝ) else v.y) = 0
    rw [if_pos h]

/-- C8 witness: at a concrete velocity with zero tangential components both
below-threshold tangential components are snapped to zero while the normal
component 5 passes through. -/
theorem velocity_snap_tangential_only_witness :
    |(Vec3.mk 0 0 5).x| < SignificantReal ∧
    |(Vec3.mk 0 0 5).y| < SignificantReal ∧
    (realizeSubsystemDynamicsImpl prmW (stW 1) pW (Vec3.mk 0 0 5)).1.v.x = 0 ∧
    (realizeSubsystemDynamicsImpl prmW (stW 1) pW (Vec3.mk 0 0 5)).1.v.y = 0 ∧
    (realizeSubsystemDynamicsImpl prmW (stW 1) pW (Vec3.mk 0 0 5)).1.vz = 5 := by
  have hx : |(Vec3.mk 0 0 5).x| < SignificantReal := by
    simpa using SignificantReal_pos
  have hy : |(Vec3.mk 0 0 5).y| < SignificantReal := by
    simpa using SignificantReal_pos
  exact ⟨hx, hy,
    (velocity_snap_tangential_only prmW (stW 1) pW (Vec3.mk 0 0 5)).2.1 hx,
    (velocity_snap_tangential_only prmW (stW 1) pW (Vec3.mk 0 0 5)).2.2.1 hy,
    (velocity_snap_tangential_only prmW (stW 1) pW (Vec3.mk 0 0 5)).2.2.2⟩

lemma norm_zero_vec : (0 : Vec3).norm = 0 := by
  unfold Vec3.norm
  simp

lemma norm220 : (Vec3.mk (-2) 0 0).norm = 2 := by
  unfold Vec3.norm
  rw [show ((-2 : ℝ) ^ 2 + (0 : ℝ) ^ 2 + (0 : ℝ) ^ 2) = 2 ^ 2 by norm_num,
    Real.sqrt_sq (by norm_num : (0 : ℝ) ≤ 2)]

/-- When the sliding blend factor is 0 and the limit was saturated with a
nonnegative limit, the blended total friction force has magnitude exactly
fxyLimit. -/
lemma fric_norm_at_limit (prm : Parameters) (st : SpringState) (p v : Vec3)
    (hs : clampSliding st.z = 0)
    (hL : 0 ≤ (realizeSubsystemDynamicsImpl prm st p v).1.fxyLimit)
    (hr : (realizeSubsystemDynamicsImpl prm st p v).1.limitReached = true) :
    (realizeSubsystemDynamicsImpl prm st p v).1.fric.norm
      = (realizeSubsystemDynamicsImpl prm st p v).1.fxyLimit := by
  have hr2 : (saturateFric (realizeSubsystemDynamicsImpl prm st p v).1.fxyLimit
      ((-prm.kpFric) • ((realizeSubsystemDynamicsImpl prm st p v).1.pxy - st.sprZero))
      ((-prm.kvFric) • (realizeSubsystemDynamicsImpl prm st p v).1.vxy)).1 = true := by
    rw [← realize_limitReached]
    exact hr
  have hcond := (saturateFric_true_iff _ _ _).1 hr2
  rw [realize_fric, realize_fricElas, realize_fricDamp, hs]
  simp only [sub_zero, Vec3.one_smul', Vec3.zero_smul', Vec3.add_zero']
  exact saturateFric_norm _ _ _ hL hcond

/-- Evaluation of the dynamics stage at the concrete witness inputs: the
station sits on the plane displaced two units tangentially with zero
velocity, giving unit normal force, unit friction limit, a saturated
anchored-spring candidate of raw magnitude two, and a blended total friction
of magnitude 1 - s. -/
lemma evalW (s : ℝ) (h0 : 0 ≤ s) (h1 : s ≤ 1) :
    (realizeSubsystemDynamicsImpl prmW (stW s) pW 0).1.fxyLimit = 1 ∧
    (realizeSubsystemDynamicsImpl prmW (stW s) pW 0).1.limitReached = true ∧
    (realizeSubsystemDynamicsImpl prmW (stW s) pW 0).1.fric.norm = 1 - s := by
  have hsnap : snapVelocity (0 : Vec3) = 0 := by
    unfold snapVelocity
    ext <;> simp
  have hpz : (realizeSubsystemDynamicsImpl prmW (stW s) pW 0).1.pz = 0 := rfl
  have hvz : (realizeSubsystemDynamicsImpl prmW (stW s) pW 0).1.vz = 0 := rfl
  have hpxy : (realizeSubsystemDynamicsImpl prmW (stW s) pW 0).1.pxy
      = Vec3.mk 2 0 0 := rfl
  have hvxy : (realizeSubsystemDynamicsImpl prmW (stW s) pW 0).1.vxy = 0 := by
    rw [realize_vxy, hsnap]
    rfl
  have hfzElas : (realizeSubsystemDynamicsImpl prmW (stW s) pW 0).1.fzElas = 1 := by
    rw [realize_fzElas, hpz]
    simp [prmW]
  have hfzDamp : (realizeSubsystemDynamicsImpl prmW (stW s) pW 0).1.fzDamp = 0 := by
    rw [realize_fzDamp, hvz]
    ring
  have hfz : (realizeSubsystemDynamicsImpl prmW (stW s) pW 0).1.fz = 1 := by
    rw [realize_fz, hfzElas, hfzDamp]
    unfold ClampAboveZero
    norm_num
  have hsliding : clampSliding (stW s).z = s := clampSliding_of_mem s h0 h1
  have hmu : (realizeSubsystemDynamicsImpl prmW (stW s) pW 0).1.mu = 1 := by
    rw [realize_mu]
    simp [stW]
  have hfxyLimit : (realizeSubsystemDynamicsImpl prmW (stW s) pW 0).1.fxyLimit = 1 := by
    rw [realize_fxyLimit, hmu, hfz]
    norm_num
  have he0 : (-prmW.kpFric) •
      ((realizeSubsystemDynamicsImpl prmW (stW s) pW 0).1.pxy - (stW s).sprZero)
      = Vec3.mk (-2) 0 0 := by
    rw [hpxy]
    ext <;> norm_num [prmW, stW]
  have hd0 : (-prmW.kvFric) •
      (realizeSubsystemDynamicsImpl prmW (stW s) pW 0).1.vxy = (0 : Vec3) := by
    rw [hvxy]
    exact Vec3.smul_zero' _
  have hgt : ((Vec3.mk (-2) 0 0) + 0).norm > 1 := by
    rw [Vec3.add_zero', norm220]
    norm_num
  have hlr : (realizeSubsystemDynamicsImpl prmW (stW s) pW 0).1.limitReached = true := by
    rw [realize_limitReached]
    refine (saturateFric_true_iff _ _ _).2 ?_
    rw [he0, hd0, hfxyLimit, Vec3.add_zero', norm220]
    norm_num
  have hsatval := saturateFric_of_sat 1 (Vec3.mk (-2) 0 0) 0 hgt
  have hfricElas : (realizeSubsystemDynamicsImpl prmW (stW s) pW 0).1.fricElas
      = Vec3.mk (-(1 - s)) 0 0 := by
    rw [realize_fricElas, he0, hd0, hfxyLimit, hsliding, hsatval]
    dsimp only
    rw [Vec3.add_zero', norm220, Vec3.smul_assoc']
    ext <;> simp
  have hfricDamp : (realizeSubsystemDynamicsImpl prmW (stW s) pW 0).1.fricDamp
      = 0 := by
    rw [realize_fricDamp, he0, hd0, hfxyLimit, hsliding, hsatval]
    dsimp only
    have hflim : fricLimitOf 1 (0 : Vec3) = 0 := by
      rw [fricLimitOf_of_under 1 0 (by norm_num [SignificantReal])
        (by rw [norm_zero_vec]; norm_num)]
    rw [hflim]
    ext <;> simp
  have hfric : (realizeSubsystemDynamicsImpl prmW (stW s) pW 0).1.fric
      = Vec3.mk (-(1 - s)) 0 0 := by
    rw [realize_fric, hfricElas, hfricDamp, Vec3.add_zero']
  refine ⟨hfxyLimit, hlr, ?_⟩
  rw [hfric]
  unfold Vec3.norm
  rw [show ((-(1 - s)) ^ 2 + (0 : ℝ) ^ 2 + (0 : ℝ) ^ 2) = (1 - s) ^ 2 by ring,
    Real.sqrt_sq (by linarith)]

/-- C2 counterexample: at a concrete evaluation with raw Sliding state 1, a
tangential displacement of two units saturates the friction limit
(limitReached is reported true, fxyLimit = 1), yet the returned total
friction force is the zero vector, whose magnitude 0 differs from fxyLimit:
the claim that the returned total friction magnitude equals fxyLimit in
every saturated step is false. -/
theorem saturation_total_friction_counterexample :
    (realizeSubsystemDynamicsImpl prmW (stW 1) pW 0).1.limitReached = true ∧
    (realizeSubsystemDynamicsImpl prmW (stW 1) pW 0).1.fric.norm
      ≠ (realizeSubsystemDynamicsImpl prmW (stW 1) pW 0).1.fxyLimit := by
  obtain ⟨hL, hr, hn⟩ := evalW 1 (by norm_num) le_rfl
  refine ⟨hr, ?_⟩
  rw [hn, hL]
  norm_num

/-- C2 (amended): when the anchored-spring candidate exceeds a nonnegative
friction limit, both parts are scaled uniformly by the nonnegative factor
fxyLimit / |fricSpr| (preserving the direction of each), limitSaturated is
reported true, and the scaled pure-stuck candidate has magnitude exactly
fxyLimit; the returned blended total friction has magnitude fxyLimit when
the sliding blend factor is 0 (for larger sliding values the blend with the
capped damper can reduce the returned magnitude). -/
theorem saturation_scaling (L : ℝ) (e d : Vec3) (prm : Parameters)
    (st : SpringState) (p v : Vec3)
    (hL : 0 ≤ L) (hsat : (e + d).norm > L)
    (hs : clampSliding st.z = 0)
    (hL2 : 0 ≤ (realizeSubsystemDynamicsImpl prm st p v).1.fxyLimit)
    (hr : (realizeSubsystemDynamicsImpl prm st p v).1.limitReached = true) :
    (saturateFric L e d).1 = true ∧
    (saturateFric L e d).2.1 = (L / (e + d).norm) • e ∧
    (saturateFric L e d).2.2 = (L / (e + d).norm) • d ∧
    0 ≤ L / (e + d).norm ∧
    ((saturateFric L e d).2.1 + (saturateFric L e d).2.2).norm = L ∧
    (realizeSubsystemDynamicsImpl prm st p v).1.fric.norm
      = (realizeSubsystemDynamicsImpl prm st p v).1.fxyLimit := by
  have hof := saturateFric_of_sat L e d hsat
  exact ⟨by rw [hof], by rw [hof], by rw [hof],
    div_nonneg hL (Vec3.norm_nonneg _),
    saturateFric_norm L e d hL hsat,
    fric_norm_at_limit prm st p v hs hL2 hr⟩

/-- C2 witness: the saturated candidates of the concrete evaluation with
sliding blend 0 are scaled to the unit limit and the returned total friction
magnitude equals the limit. -/
theorem saturation_scaling_witness :
    (0 : ℝ) ≤ 1 ∧
    ((Vec3.mk (-2) 0 0) + 0).norm > 1 ∧
    clampSliding (stW 0).z = 0 ∧
    0 ≤ (realizeSubsystemDynamicsImpl prmW (stW 0) pW 0).1.fxyLimit ∧
    (realizeSubsystemDynamicsImpl prmW (stW 0) pW 0).1.limitReached = true ∧
    (saturateFric 1 (Vec3.mk (-2) 0 0) 0).1 = true ∧
    ((saturateFric 1 (Vec3.mk (-2) 0 0) 0).2.1 +
      (saturateFric 1 (Vec3.mk (-2) 0 0) 0).2.2).norm = 1 ∧
    (realizeSubsystemDynamicsImpl prmW (stW 0) pW 0).1.fric.norm
      = (realizeSubsystemDynamicsImpl prmW (stW 0) pW 0).1.fxyLimit := by
  obtain ⟨hL, hr, _hn⟩ := evalW 0 le_rfl (by norm_num)
  have hgt : ((Vec3.mk (-2) 0 0) + 0).norm > 1 := by
    rw [Vec3.add_zero', norm220]
    norm_num
  have hs : clampSliding (stW 0).z = 0 := clampSliding_of_mem 0 le_rfl (by norm_num)
  have hL2 : 0 ≤ (realizeSubsystemDynamicsImpl prmW (stW 0) pW 0).1.fxyLimit := by
    rw [hL]
    norm_num
  exact ⟨by norm_num, hgt, hs, hL2, hr,
    (saturation_scaling 1 (Vec3.mk (-2) 0 0) 0 prmW (stW 0) pW 0
      (by norm_num) hgt hs hL2 hr).1,
    (saturation_scaling 1 (Vec3.mk (-2) 0 0) 0 prmW (stW 0) pW 0
      (by norm_num) hgt hs hL2 hr).2.2.2.2.1,
    (saturation_scaling 1 (Vec3.mk (-2) 0 0) 0 prmW (stW 0) pW 0
      (by norm_num) hgt hs hL2 hr).2.2.2.2.2⟩

end SimTK
